import Mathlib

/-
Verification of the Cacaroids per-frame simulation core.

Shallow embedding of the Rust sources (src/player.rs, src/bullet.rs,
src/asteroid.rs, src/game.rs) over exact rational arithmetic.

Modeling conventions, each justified against the source:
* f32 values are modeled as rationals.  The source predicates compared here
  are order comparisons and affine arithmetic, which the claims treat
  exactly; rounding is not at issue in any claim.
* The circle-overlap test in game.rs is
  distance(p, q) < r + s  with  r + s ≥ 0;  it is embedded in the
  equivalent squared form  distSq p q < (r + s)^2,  avoiding square roots.
* Vec2.from_angle, f32 sqrt, TAU and FRAC_PI_2 are irrational-valued; they
  are carried as fields of an environment record (Env), so every theorem
  quantifies over them and every witness instantiates them concretely.
* rand.gen_range(lo, hi) is modeled as  lo + u * (hi - lo)  where u is the
  next value of an abstract stream  rng : Nat → ℚ  of draws in [0, 1); a
  cursor index is threaded explicitly through every computation that draws.
* The u32 score cannot overflow in any scenario considered (per-frame
  increments are bounded small constants), so it is modeled as Nat.
-/

namespace Cacaroids

/-- Two-dimensional vector of rationals, modeling macroquad Vec2. -/
structure Vec2 where
  x : ℚ
  y : ℚ
  deriving DecidableEq

instance : Add Vec2 := ⟨fun v w => ⟨v.x + w.x, v.y + w.y⟩⟩

/-- Scalar multiple, modeling Vec2 * f32. -/
def Vec2.smul (v : Vec2) (c : ℚ) : Vec2 := ⟨v.x * c, v.y * c⟩

/-- Squared Euclidean distance between two points. -/
def Vec2.distSq (v w : Vec2) : ℚ := (v.x - w.x) ^ 2 + (v.y - w.y) ^ 2

/-- Environment of a frame: frame delta time (get_frame_time), live-queried
screen dimensions (screen_width / screen_height), and the transcendental
operations of the source kept abstract: Vec2::from_angle, f32 sqrt
(used by Vec2::length / normalize), and the constants TAU and FRAC_PI_2. -/
structure Env where
  dt : ℚ
  w : ℚ
  h : ℚ
  tau : ℚ
  halfPi : ℚ
  fromAngle : ℚ → Vec2
  sqrtQ : ℚ → ℚ

/-- Discrete input signals consumed by the core in one frame, after the
key-binding layer (readInput below) has been applied. -/
structure Input where
  left : Bool
  right : Bool
  up : Bool
  fire : Bool
  restart : Bool
  deriving DecidableEq

/-- Key codes referenced by the source (player.rs and game.rs). -/
inductive KeyCode where
  | Left
  | Right
  | Up
  | A
  | D
  | W
  | Space
  | Z
  | R
  deriving DecidableEq, Fintype

/-- Keyboard state of one frame: keys currently held (is_key_down) and keys
freshly pressed this frame (is_key_pressed, press-edge). -/
structure InputState where
  down : List KeyCode
  pressed : List KeyCode

/-- Key-binding layer, verbatim from the source:
left is Left or A held, right is Right or D held, up is Up or W held
(player.rs lines 30, 33, 38); fire is Space or Z pressed (player.rs
line 62); the restart signal is R pressed (game.rs line 95). -/
def readInput (s : InputState) : Input where
  left := s.down.contains .Left || s.down.contains .A
  right := s.down.contains .Right || s.down.contains .D
  up := s.down.contains .Up || s.down.contains .W
  fire := s.pressed.contains .Space || s.pressed.contains .Z
  restart := s.pressed.contains .R

/-- gen_range(lo, hi) applied to one abstract draw u of [0, 1). -/
def genR (lo hi u : ℚ) : ℚ := lo + u * (hi - lo)

/-- One axis of the screen wrap, verbatim from the two sequential ifs of
the source (asteroid.rs 101-102, player.rs 55-56, bullet.rs 34-35):
first, a coordinate below 0 is replaced by the dimension; then, a
coordinate above the dimension is replaced by 0. -/
def wrap1 (x w : ℚ) : ℚ :=
  let x1 := if x < 0 then w else x
  if x1 > w then 0 else x1

/-- Screen wrap applied axiswise to a position. -/
def wrapVec (env : Env) (v : Vec2) : Vec2 := ⟨wrap1 v.x env.w, wrap1 v.y env.h⟩

/-- Asteroid size tier. -/
inductive AsteroidSize where
  | Big
  | Medium
  | Small
  deriving DecidableEq

/-- Collision radius per tier (asteroid.rs 11-17). -/
def AsteroidSize.radius : AsteroidSize → ℚ
  | .Big => 56
  | .Medium => 32
  | .Small => 16

/-- Speed magnitude per tier (asteroid.rs 27-33). -/
def AsteroidSize.speed : AsteroidSize → ℚ
  | .Big => 60
  | .Medium => 100
  | .Small => 160

/-- Score award per tier (asteroid.rs 35-41). -/
def AsteroidSize.score : AsteroidSize → ℕ
  | .Big => 20
  | .Medium => 50
  | .Small => 100

/-- Child tier on split, none for Small (asteroid.rs 44-50). -/
def AsteroidSize.split : AsteroidSize → Option AsteroidSize
  | .Big => some .Medium
  | .Medium => some .Small
  | .Small => none

/-- Asteroid entity (asteroid.rs 53-61); the texture field carries no
simulation content and is omitted. -/
structure Asteroid where
  pos : Vec2
  vel : Vec2
  rotation : ℚ
  rot_speed : ℚ
  size : AsteroidSize
  alive : Bool
  deriving DecidableEq

/-- Asteroid::new (asteroid.rs 64-78), threading the rng cursor.  The draws
happen in source order: heading angle, rotational speed, then the initial
rotation inside the struct literal.  Returns the asteroid and the advanced
cursor. -/
def Asteroid.new (env : Env) (rng : ℕ → ℚ) (pos : Vec2) (size : AsteroidSize)
    (k : ℕ) : Asteroid × ℕ :=
  let angle := genR 0 env.tau (rng k)
  let speed := size.speed
  let rotSpd := genR (-2) 2 (rng (k + 1))
  ({ pos := pos
     vel := (env.fromAngle angle).smul speed
     rotation := genR 0 env.tau (rng (k + 2))
     rot_speed := rotSpd
     size := size
     alive := true }, k + 3)

/-- Asteroid::split (asteroid.rs 81-93): no children for Small, otherwise
two children created sequentially at the parent position, each by the
creation rule with its own fresh draws. -/
def Asteroid.split (a : Asteroid) (env : Env) (rng : ℕ → ℚ) (k : ℕ) :
    List Asteroid × ℕ :=
  match a.size.split with
  | none => ([], k)
  | some cs =>
    ([(Asteroid.new env rng a.pos cs k).1,
      (Asteroid.new env rng a.pos cs (Asteroid.new env rng a.pos cs k).2).1],
     (Asteroid.new env rng a.pos cs (Asteroid.new env rng a.pos cs k).2).2)

/-- Asteroid::update (asteroid.rs 95-105): advance rotation, integrate the
position, wrap. -/
def Asteroid.update (env : Env) (a : Asteroid) : Asteroid :=
  { a with
    rotation := a.rotation + a.rot_speed * env.dt
    pos := wrapVec env (a.pos + a.vel.smul env.dt) }

/-- Collision radius of an asteroid instance (asteroid.rs 123-125). -/
def Asteroid.radius (a : Asteroid) : ℚ := a.size.radius

/-- Bullet entity (bullet.rs 3-9); texture omitted. -/
structure Bullet where
  pos : Vec2
  vel : Vec2
  alive : Bool
  lifetime : ℚ
  deriving DecidableEq

/-- Bullet::new (bullet.rs 12-20). -/
def Bullet.new (pos direction : Vec2) : Bullet :=
  { pos := pos, vel := direction.smul 600, alive := true, lifetime := 3 / 2 }

/-- Bullet::update (bullet.rs 22-38): decrement lifetime; on expiry mark
dead and return without integrating; otherwise integrate and wrap. -/
def Bullet.update (env : Env) (b : Bullet) : Bullet :=
  let lt := b.lifetime - env.dt
  if lt ≤ 0 then { b with lifetime := lt, alive := false }
  else { b with lifetime := lt, pos := wrapVec env (b.pos + b.vel.smul env.dt) }

/-- Collision radius of a bullet (bullet.rs 54). -/
def Bullet.radius (_ : Bullet) : ℚ := 4

/-- Player entity (player.rs 3-10); texture omitted. -/
structure Player where
  pos : Vec2
  vel : Vec2
  rotation : ℚ
  alive : Bool
  shoot_cooldown : ℚ
  deriving DecidableEq

/-- Collision radius of the player (player.rs 89). -/
def Player.radius (_ : Player) : ℚ := 24

/-- Player::update (player.rs 26-71): turn, thrust, drag, speed clamp,
integrate and wrap, decrement the fire cooldown, then emit an optional
bullet-spawn position on a fire press-edge with cooldown at or below 0. -/
def Player.update (env : Env) (inp : Input) (p : Player) : Player × Option Vec2 :=
  let dt := env.dt
  let rot1 := if inp.left then p.rotation - 3 * dt else p.rotation
  let rot := if inp.right then rot1 + 3 * dt else rot1
  let v1 := if inp.up then p.vel + (env.fromAngle (rot - env.halfPi)).smul (400 * dt)
            else p.vel
  let v2 := v1.smul (1 - min (1 / 50 : ℚ) 1 * (dt * 60))
  let lenSq := v2.x * v2.x + v2.y * v2.y
  let vel := if env.sqrtQ lenSq > 400 then (v2.smul (1 / env.sqrtQ lenSq)).smul 400
             else v2
  let pos := wrapVec env (p.pos + vel.smul dt)
  let cd := p.shoot_cooldown - dt
  if inp.fire && decide (cd ≤ 0) then
    ({ p with pos := pos, vel := vel, rotation := rot, shoot_cooldown := 1 / 4 },
     some (pos + (env.fromAngle (rot - env.halfPi)).smul 32))
  else
    ({ p with pos := pos, vel := vel, rotation := rot, shoot_cooldown := cd }, none)

/-- Circle-circle overlap test of the source,
distance(p, q) < r + s, embedded in the equivalent squared form
(both sides of the source comparison are nonnegative). -/
def circleHit (p q : Vec2) (r s : ℚ) : Bool := decide (Vec2.distSq p q < (r + s) ^ 2)

/-- Result of scanning one bullet over the asteroid list (the inner loop of
the bullet-asteroid pass, game.rs 127-140). -/
structure ScanOut where
  bullet : Bullet
  asts : List Asteroid
  score : ℕ
  staged : List Asteroid
  k : ℕ
  deriving DecidableEq

/-- Inner loop of the bullet-asteroid pass (game.rs 127-140): walk the
asteroid list with the current bullet; skip dead asteroids; on overlap mark
the bullet and the asteroid dead, add the tier score, stage the split
children.  Faithful detail: the bullet death mark set mid-scan is NOT
rechecked for later asteroids — the source only tests b.alive at the top
of the outer loop — so the scan continues with the dead bullet, whose
position and radius still pass the overlap test. -/
def hitScan (env : Env) (rng : ℕ → ℚ) :
    Bullet → List Asteroid → ℕ → List Asteroid → ℕ → ScanOut
  | b, [], sc, stg, k => ⟨b, [], sc, stg, k⟩
  | b, a :: rest, sc, stg, k =>
    if a.alive = false then
      let r := hitScan env rng b rest sc stg k
      { r with asts := a :: r.asts }
    else if circleHit b.pos a.pos b.radius a.radius then
      let deadA := { a with alive := false }
      let r := hitScan env rng { b with alive := false } rest
        (sc + deadA.size.score) (stg ++ (deadA.split env rng k).1)
        (deadA.split env rng k).2
      { r with asts := deadA :: r.asts }
    else
      let r := hitScan env rng b rest sc stg k
      { r with asts := a :: r.asts }

/-- Result of the full bullet-asteroid pass (game.rs 122-141). -/
structure PassOut where
  bullets : List Bullet
  asts : List Asteroid
  score : ℕ
  staged : List Asteroid
  k : ℕ
  deriving DecidableEq

/-- Outer loop of the bullet-asteroid pass (game.rs 124-141): a bullet
already dead when its turn comes is skipped whole; a live bullet is scanned
over the asteroid list by hitScan, and the mutated asteroid list, score and
staged children flow into the next bullet. -/
def bulletPass (env : Env) (rng : ℕ → ℚ) :
    List Bullet → List Asteroid → ℕ → List Asteroid → ℕ → PassOut
  | [], A, sc, stg, k => ⟨[], A, sc, stg, k⟩
  | b :: bs, A, sc, stg, k =>
    if b.alive = false then
      let r := bulletPass env rng bs A sc stg k
      { r with bullets := b :: r.bullets }
    else
      let s := hitScan env rng b A sc stg k
      let r := bulletPass env rng bs s.asts s.score s.staged s.k
      { r with bullets := s.bullet :: r.bullets }

/-- Player-asteroid overlap check (game.rs 147-155): the player circle
against every live asteroid.  The source loop returns at the first overlap;
its sole observable effect is whether some live asteroid overlaps. -/
def playerHit (p : Player) (asts : List Asteroid) : Bool :=
  asts.any fun a => a.alive && circleHit p.pos a.pos p.radius a.radius

/-- Game state machine (game.rs 16-20). -/
inductive GameState where
  | Playing
  | GameOver
  | Victory
  deriving DecidableEq

/-- The orchestrator state (game.rs 24-38); textures omitted. -/
structure Game where
  player : Player
  bullets : List Bullet
  asteroids : List Asteroid
  state : GameState
  score : ℕ
  deriving DecidableEq

/-- INITIAL_ASTEROIDS (game.rs 7). -/
def INITIAL_ASTEROIDS : ℕ := 5

/-- SAFE_RADIUS (game.rs 11). -/
def SAFE_RADIUS : ℚ := 150

/-- Default player position, vec2(640.0, 360.0) (player.rs 17, game.rs
249 and 252). -/
def defaultPos : Vec2 := ⟨640, 360⟩

/-- Candidate position of trial j for a spawn slot whose first draw sits at
cursor k: gen_range(0, screen_width) and gen_range(0, screen_height)
consume two consecutive draws per trial (game.rs 79-82). -/
def sampleAt (env : Env) (rng : ℕ → ℚ) (k j : ℕ) : Vec2 :=
  ⟨genR 0 env.w (rng (k + 2 * j)), genR 0 env.h (rng (k + 2 * j + 1))⟩

/-- Acceptance test of the rejection sampling (game.rs 83): the candidate
is farther than SAFE_RADIUS from the avoid point, in squared form. -/
abbrev acceptSample (env : Env) (rng : ℕ → ℚ) (avoid : Vec2) (k j : ℕ) : Prop :=
  SAFE_RADIUS ^ 2 < Vec2.distSq (sampleAt env rng k j) avoid

/-- Termination assumption of the unbounded rejection-sampling loop
(game.rs 78-87): from every cursor, some trial is accepted.  The source
loops forever otherwise, so every computation that spawns carries this. -/
def SpawnOk (env : Env) (rng : ℕ → ℚ) (avoid : Vec2) : Prop :=
  ∀ k, ∃ j, acceptSample env rng avoid k j

/-- One slot of spawn_asteroids (game.rs 78-87): take the first accepted
trial and create a Big asteroid there; the cursor advances past the two
draws of each of the j+1 trials, then past the three creation draws. -/
def spawnOne (env : Env) (rng : ℕ → ℚ) (avoid : Vec2) (k : ℕ)
    (h : ∃ j, acceptSample env rng avoid k j) : Asteroid × ℕ :=
  Asteroid.new env rng (sampleAt env rng k (Nat.find h)) .Big
    (k + 2 * (Nat.find h + 1))

/-- Game::spawn_asteroids (game.rs 76-89): count slots, sequentially. -/
def spawnAsteroids (env : Env) (rng : ℕ → ℚ) (avoid : Vec2)
    (H : SpawnOk env rng avoid) : ℕ → ℕ → List Asteroid × ℕ
  | 0, k => ([], k)
  | n + 1, k =>
    ((spawnOne env rng avoid k (H k)).1 ::
       (spawnAsteroids env rng avoid H n (spawnOne env rng avoid k (H k)).2).1,
     (spawnAsteroids env rng avoid H n (spawnOne env rng avoid k (H k)).2).2)

/-- Game::restart (game.rs 246-258): clear bullets, zero the score,
respawn the initial wave around the default position, reset the player
fields in place (the cooldown field and identity are untouched), and
return to Playing. -/
def Game.restart (env : Env) (rng : ℕ → ℚ) (H : SpawnOk env rng defaultPos)
    (g : Game) (k : ℕ) : Game × ℕ :=
  (⟨{ g.player with pos := defaultPos, vel := ⟨0, 0⟩, rotation := 0, alive := true },
    [],
    (spawnAsteroids env rng defaultPos H INITIAL_ASTEROIDS k).1,
    .Playing,
    0⟩,
   (spawnAsteroids env rng defaultPos H INITIAL_ASTEROIDS k).2)

/-- Steps 1 of the Playing frame (game.rs 101-107): update the player and,
if it fired, append a bullet headed along the player facing. -/
def Game.spawnBullet (env : Env) (inp : Input) (g : Game) : Player × List Bullet :=
  match g.player.update env inp with
  | (p, some bpos) =>
    (p, g.bullets ++ [Bullet.new bpos (env.fromAngle (p.rotation - env.halfPi))])
  | (p, none) => (p, g.bullets)

/-- Step 2 (game.rs 109-117): integrate every bullet (including one just
fired) and every asteroid. -/
def Game.integrated (env : Env) (inp : Input) (g : Game) :
    Player × List Bullet × List Asteroid :=
  ((Game.spawnBullet env inp g).1,
   (Game.spawnBullet env inp g).2.map (Bullet.update env),
   g.asteroids.map (Asteroid.update env))

/-- Step 3 (game.rs 119-141): the bullet-asteroid pass over the integrated
collections, children staged aside. -/
def Game.afterPass (env : Env) (rng : ℕ → ℚ) (inp : Input) (g : Game) (k : ℕ) :
    Player × PassOut :=
  ((Game.integrated env inp g).1,
   bulletPass env rng (Game.integrated env inp g).2.1
     (Game.integrated env inp g).2.2 g.score [] k)

/-- Steps 3-6 of the Playing frame (game.rs 101-168): after the pass the
staged children are appended; if the live player overlaps a live asteroid
the frame ends at once in GameOver with nothing pruned; otherwise dead
entities are pruned and an empty asteroid list yields Victory. -/
def Game.updatePlaying (env : Env) (rng : ℕ → ℚ) (inp : Input) (g : Game)
    (k : ℕ) : Game × ℕ :=
  let p := (Game.afterPass env rng inp g k).1
  let r := (Game.afterPass env rng inp g k).2
  let merged := r.asts ++ r.staged
  if p.alive && playerHit p merged then
    (⟨{ p with alive := false }, r.bullets, merged, .GameOver, r.score⟩, r.k)
  else
    let bs := r.bullets.filter fun b => b.alive
    let remaining := merged.filter fun a => a.alive
    (⟨p, bs, remaining, if remaining.isEmpty then .Victory else .Playing, r.score⟩,
     r.k)

/-- Game::update (game.rs 92-169): outside Playing only the restart signal
is consulted; in Playing the full frame pipeline runs. -/
def Game.update (env : Env) (rng : ℕ → ℚ) (H : SpawnOk env rng defaultPos)
    (inp : Input) (g : Game) (k : ℕ) : Game × ℕ :=
  if g.state ≠ .Playing then
    if inp.restart then Game.restart env rng H g k else (g, k)
  else Game.updatePlaying env rng inp g k

/-- Concrete frame environment used by witnesses: dt 1, a 1000 by 1000
screen, and arbitrary concrete values for the abstract operations. -/
def env0 : Env :=
  { dt := 1, w := 1000, h := 1000, tau := 7, halfPi := 2,
    fromAngle := fun _ => ⟨1, 0⟩, sqrtQ := fun _ => 0 }

/-- Concrete draw stream used by witnesses: every draw is one half. -/
def rng0 : ℕ → ℚ := fun _ => 1 / 2

/-- Input with no signal active. -/
def inp0 : Input :=
  { left := false, right := false, up := false, fire := false, restart := false }

/-- A dead asteroid with all other fields kept, as the collision pass
produces it. -/
def killA (a : Asteroid) : Asteroid := { a with alive := false }

/-- What the bullet-asteroid pass may do to one asteroid slot: leave it
unchanged, or kill it provided it was alive. -/
def StepA (a a2 : Asteroid) : Prop := a2 = a ∨ (a.alive = true ∧ a2 = killA a)

/-- Score credited for one asteroid slot across the pass: its tier score
exactly when it went from alive to dead. -/
def credit (a a2 : Asteroid) : ℕ :=
  if a.alive = true ∧ a2.alive = false then a.size.score else 0

/-- Total score credited across the pass, slot by slot. -/
def creditSum : List Asteroid → List Asteroid → ℕ
  | a :: tl, a2 :: tl2 => credit a a2 + creditSum tl tl2
  | _, _ => 0

/-- A player standing still at the screen center area, not firing. -/
def p0 : Player :=
  { pos := ⟨500, 500⟩, vel := ⟨0, 0⟩, rotation := 0, alive := true,
    shoot_cooldown := 5 }

/-- A motionless live bullet at (500, 500) with ample lifetime. -/
def b500 : Bullet := { pos := ⟨500, 500⟩, vel := ⟨0, 0⟩, alive := true, lifetime := 10 }

/-- A motionless live Big asteroid at (500, 500). -/
def big500 : Asteroid :=
  { pos := ⟨500, 500⟩, vel := ⟨0, 0⟩, rotation := 0, rot_speed := 0,
    size := .Big, alive := true }

/-- Frame scenario for the staging claim: two live bullets and the player
all stand at (500, 500), on top of one live Big asteroid. -/
def g10 : Game :=
  { player := p0, bullets := [b500, b500], asteroids := [big500],
    state := .Playing, score := 0 }

/-- Two motionless live Small asteroids both overlapping b500: the first
right under it, the second 10 units away (radii 4 + 16 = 20 > 10). -/
def small500 : Asteroid :=
  { pos := ⟨500, 500⟩, vel := ⟨0, 0⟩, rotation := 0, rot_speed := 0,
    size := .Small, alive := true }

/-- Second overlapping Small asteroid, 10 units from the bullet. -/
def small510 : Asteroid := { small500 with pos := ⟨510, 500⟩ }

/-- A game sitting on the GameOver screen, used for restart scenarios. -/
def gOver : Game :=
  { player := { p0 with alive := false }, bullets := [b500], asteroids := [big500],
    state := .GameOver, score := 7 }

/-- A motionless live bullet at the given point with ample lifetime. -/
def bltAt (x y : ℚ) : Bullet :=
  { pos := ⟨x, y⟩, vel := ⟨0, 0⟩, alive := true, lifetime := 10 }

/-- A motionless live asteroid of the given tier at the given point. -/
def astAt (s : AsteroidSize) (x y : ℚ) : Asteroid :=
  { pos := ⟨x, y⟩, vel := ⟨0, 0⟩, rotation := 0, rot_speed := 0,
    size := s, alive := true }

/-- An already-dead bullet. -/
def bDead : Bullet := { pos := ⟨0, 0⟩, vel := ⟨0, 0⟩, alive := false, lifetime := 0 }

/-- An asteroid integrating to a negative x this frame: position (5, 5)
moving left at 10 per second. -/
def aNeg : Asteroid :=
  { pos := ⟨5, 5⟩, vel := ⟨-10, 0⟩, rotation := 0, rot_speed := 0,
    size := .Small, alive := true }

/-- Frame scenario for the player-asteroid pass: the live player stands on
one live Big asteroid, with no bullets. -/
def g6 : Game :=
  { player := p0, bullets := [], asteroids := [big500],
    state := .Playing, score := 0 }

/-- Input with only the restart signal active. -/
def inpR : Input :=
  { left := false, right := false, up := false, fire := false, restart := true }

/-- The first split child of big500 under env0 and rng0. -/
def child0 : Asteroid := (Asteroid.new env0 rng0 ⟨500, 500⟩ .Medium 0).1

/- ===================== helper lemmas ===================== -/

theorem Vec2.add_def (v w : Vec2) : v + w = ⟨v.x + w.x, v.y + w.y⟩ := rfl

/-- Under rng0 every first trial already clears the safe radius, so the
rejection sampling terminates from any cursor. -/
theorem spawnOk0 : SpawnOk env0 rng0 defaultPos := by
  intro k
  exact ⟨0, by norm_num [acceptSample, sampleAt, genR, Vec2.distSq, env0, rng0,
    defaultPos, SAFE_RADIUS]⟩

theorem wrap1_neg {x w : ℚ} (h : x < 0) : wrap1 x w = w := by
  unfold wrap1
  simp [h]

theorem wrap1_over {x w : ℚ} (hw : 0 ≤ w) (h : w < x) : wrap1 x w = 0 := by
  unfold wrap1
  have hx : ¬ x < 0 := by linarith
  simp [hx, h]

theorem wrap1_id {x w : ℚ} (h0 : 0 ≤ x) (h1 : x ≤ w) : wrap1 x w = x := by
  unfold wrap1
  simp [not_lt.2 h0, not_lt.2 h1]

theorem wrap1_bounds {w : ℚ} (hw : 0 ≤ w) (x : ℚ) :
    0 ≤ wrap1 x w ∧ wrap1 x w ≤ w := by
  unfold wrap1
  dsimp only
  split_ifs <;> constructor <;> linarith

theorem genR_zero_bounds {w u : ℚ} (h0 : 0 ≤ u) (h1 : u < 1) (hw : 0 < w) :
    0 ≤ genR 0 w u ∧ genR 0 w u < w := by
  have he : genR 0 w u = u * w := by unfold genR; ring
  rw [he]
  exact ⟨mul_nonneg h0 hw.le, by nlinarith⟩

theorem killA_alive (a : Asteroid) : (killA a).alive = false := rfl

theorem credit_self (a : Asteroid) : credit a a = 0 := by
  cases h : a.alive <;> simp [credit, h]

theorem creditSum_self : ∀ A : List Asteroid, creditSum A A = 0
  | [] => rfl
  | a :: tl => by simp [creditSum, credit_self, creditSum_self tl]

theorem stepA_refl (a : Asteroid) : StepA a a := Or.inl rfl

theorem forall2_stepA_refl (A : List Asteroid) : List.Forall₂ StepA A A := by
  induction A with
  | nil => exact List.Forall₂.nil
  | cons a tl ih => exact List.Forall₂.cons (stepA_refl a) ih

theorem stepA_comp {a b c : Asteroid} (h1 : StepA a b) (h2 : StepA b c) :
    StepA a c ∧ credit a c = credit a b + credit b c := by
  rcases h1 with h1 | ⟨ha, h1⟩
  · subst h1
    exact ⟨h2, by simp [credit_self]⟩
  · subst h1
    rcases h2 with h2 | ⟨hb, h2⟩
    · subst h2
      refine ⟨Or.inr ⟨ha, rfl⟩, ?_⟩
      simp [credit_self]
    · rw [killA_alive] at hb
      cases hb

theorem forall2_stepA_comp :
    ∀ {A B C : List Asteroid}, List.Forall₂ StepA A B → List.Forall₂ StepA B C →
      List.Forall₂ StepA A C ∧ creditSum A C = creditSum A B + creditSum B C := by
  intro A B C h1
  induction h1 generalizing C with
  | nil =>
    intro h2
    cases h2
    simp [creditSum]
  | cons hab htl ih =>
    intro h2
    cases h2 with
    | cons hbc htl2 =>
      obtain ⟨hac, hcredit⟩ := stepA_comp hab hbc
      obtain ⟨hAC, hsum⟩ := ih htl2
      refine ⟨List.Forall₂.cons hac hAC, ?_⟩
      simp only [creditSum, hcredit, hsum]
      omega

theorem hitScan_spec (env : Env) (rng : ℕ → ℚ) :
    ∀ (A : List Asteroid) (b : Bullet) (sc : ℕ) (stg : List Asteroid) (k : ℕ),
      List.Forall₂ StepA A (hitScan env rng b A sc stg k).asts ∧
      (hitScan env rng b A sc stg k).score
        = sc + creditSum A (hitScan env rng b A sc stg k).asts := by
  intro A
  induction A with
  | nil =>
    intro b sc stg k
    simp [hitScan, creditSum]
  | cons a rest ih =>
    intro b sc stg k
    by_cases ha : a.alive = false
    · rw [hitScan, if_pos ha]
      obtain ⟨hF, hS⟩ := ih b sc stg k
      exact ⟨List.Forall₂.cons (stepA_refl a) hF,
        by simp [creditSum, credit_self, hS]⟩
    · have ha1 : a.alive = true := by
        cases h : a.alive
        · exact absurd h ha
        · rfl
      by_cases hc : circleHit b.pos a.pos b.radius a.radius = true
      · rw [hitScan, if_neg ha, if_pos hc]
        obtain ⟨hF, hS⟩ := ih { b with alive := false } (sc + a.size.score)
          (stg ++ (Asteroid.split { a with alive := false } env rng k).1)
          (Asteroid.split { a with alive := false } env rng k).2
        refine ⟨List.Forall₂.cons (Or.inr ⟨ha1, rfl⟩) hF, ?_⟩
        rw [hS]
        simp [creditSum, credit, ha1]
        omega
      · rw [hitScan, if_neg ha, if_neg hc]
        obtain ⟨hF, hS⟩ := ih b sc stg k
        exact ⟨List.Forall₂.cons (stepA_refl a) hF,
          by simp [creditSum, credit_self, hS]⟩

theorem bulletPass_spec (env : Env) (rng : ℕ → ℚ) :
    ∀ (bs : List Bullet) (A : List Asteroid) (sc : ℕ) (stg : List Asteroid) (k : ℕ),
      List.Forall₂ StepA A (bulletPass env rng bs A sc stg k).asts ∧
      (bulletPass env rng bs A sc stg k).score
        = sc + creditSum A (bulletPass env rng bs A sc stg k).asts := by
  intro bs
  induction bs with
  | nil =>
    intro A sc stg k
    rw [bulletPass]
    exact ⟨forall2_stepA_refl A, by simp [creditSum_self]⟩
  | cons b tl ih =>
    intro A sc stg k
    by_cases hb : b.alive = false
    · rw [bulletPass, if_pos hb]
      exact ih A sc stg k
    · obtain ⟨hF1, hS1⟩ := hitScan_spec env rng A b sc stg k
      obtain ⟨hF2, hS2⟩ := ih (hitScan env rng b A sc stg k).asts
        (hitScan env rng b A sc stg k).score
        (hitScan env rng b A sc stg k).staged (hitScan env rng b A sc stg k).k
      obtain ⟨hF, hsum⟩ := forall2_stepA_comp hF1 hF2
      rw [bulletPass, if_neg hb]
      refine ⟨hF, ?_⟩
      rw [show ({ bulletPass env rng tl (hitScan env rng b A sc stg k).asts
            (hitScan env rng b A sc stg k).score (hitScan env rng b A sc stg k).staged
            (hitScan env rng b A sc stg k).k with
            bullets := (hitScan env rng b A sc stg k).bullet ::
              (bulletPass env rng tl (hitScan env rng b A sc stg k).asts
                (hitScan env rng b A sc stg k).score
                (hitScan env rng b A sc stg k).staged
                (hitScan env rng b A sc stg k).k).bullets } : PassOut).score
          = (bulletPass env rng tl (hitScan env rng b A sc stg k).asts
              (hitScan env rng b A sc stg k).score
              (hitScan env rng b A sc stg k).staged
              (hitScan env rng b A sc stg k).k).score from rfl]
      rw [hS2, hsum, hS1]
      omega

theorem split_alive (a : Asteroid) (env : Env) (rng : ℕ → ℚ) (k : ℕ) :
    ∀ c ∈ (Asteroid.split a env rng k).1, c.alive = true := by
  unfold Asteroid.split
  cases a.size.split with
  | none => simp
  | some cs =>
    intro c hc
    simp only [List.mem_cons, List.mem_singleton, List.not_mem_nil, or_false] at hc
    rcases hc with h | h <;> subst h <;> rfl

theorem hitScan_staged (env : Env) (rng : ℕ → ℚ) :
    ∀ (A : List Asteroid) (b : Bullet) (sc : ℕ) (stg : List Asteroid) (k : ℕ),
      ∀ c ∈ (hitScan env rng b A sc stg k).staged, c ∈ stg ∨ c.alive = true := by
  intro A
  induction A with
  | nil =>
    intro b sc stg k c hc
    simp only [hitScan] at hc
    exact Or.inl hc
  | cons a rest ih =>
    intro b sc stg k c hc
    by_cases ha : a.alive = false
    · rw [hitScan, if_pos ha] at hc
      exact ih b sc stg k c hc
    · by_cases hcc : circleHit b.pos a.pos b.radius a.radius = true
      · rw [hitScan, if_neg ha, if_pos hcc] at hc
        rcases ih _ _ _ _ c hc with hmem | halive
        · rcases List.mem_append.mp hmem with hstg | hchild
          · exact Or.inl hstg
          · exact Or.inr (split_alive _ env rng _ c hchild)
        · exact Or.inr halive
      · rw [hitScan, if_neg ha, if_neg hcc] at hc
        exact ih b sc stg k c hc

theorem bulletPass_staged (env : Env) (rng : ℕ → ℚ) :
    ∀ (bs : List Bullet) (A : List Asteroid) (sc : ℕ) (stg : List Asteroid) (k : ℕ),
      ∀ c ∈ (bulletPass env rng bs A sc stg k).staged, c ∈ stg ∨ c.alive = true := by
  intro bs
  induction bs with
  | nil =>
    intro A sc stg k c hc
    simp only [bulletPass] at hc
    exact Or.inl hc
  | cons b tl ih =>
    intro A sc stg k c hc
    by_cases hb : b.alive = false
    · rw [bulletPass, if_pos hb] at hc
      exact ih A sc stg k c hc
    · rw [bulletPass, if_neg hb] at hc
      rcases ih _ _ _ _ c hc with hmem | halive
      · exact hitScan_staged env rng A b sc stg k c hmem
      · exact Or.inr halive

theorem spawnOne_pos (env : Env) (rng : ℕ → ℚ) (avoid : Vec2) (k : ℕ)
    (h : ∃ j, acceptSample env rng avoid k j) :
    (spawnOne env rng avoid k h).1.pos = sampleAt env rng k (Nat.find h) ∧
    (spawnOne env rng avoid k h).1.size = .Big ∧
    (spawnOne env rng avoid k h).1.alive = true := ⟨rfl, rfl, rfl⟩

theorem spawnAsteroids_length (env : Env) (rng : ℕ → ℚ) (avoid : Vec2)
    (H : SpawnOk env rng avoid) :
    ∀ n k, (spawnAsteroids env rng avoid H n k).1.length = n := by
  intro n
  induction n with
  | zero => intro k; rfl
  | succ m ih =>
    intro k
    rw [spawnAsteroids]
    simp [ih]

theorem spawnAsteroids_mem (env : Env) (rng : ℕ → ℚ) (avoid : Vec2)
    (H : SpawnOk env rng avoid) :
    ∀ n k, ∀ a ∈ (spawnAsteroids env rng avoid H n k).1,
      a.size = .Big ∧ a.alive = true ∧
      ∃ k0 j, a.pos = sampleAt env rng k0 j ∧ acceptSample env rng avoid k0 j ∧
        ∀ i, i < j → ¬ acceptSample env rng avoid k0 i := by
  intro n
  induction n with
  | zero =>
    intro k a ha
    simp [spawnAsteroids] at ha
  | succ m ih =>
    intro k a ha
    rw [spawnAsteroids] at ha
    rcases List.mem_cons.mp ha with h | h
    · subst h
      obtain ⟨hp, hs, hl⟩ := spawnOne_pos env rng avoid k (H k)
      exact ⟨hs, hl, k, Nat.find (H k), hp, Nat.find_spec (H k),
        fun i hi => Nat.find_min (H k) hi⟩
    · exact ih _ a h

theorem asteroid_update_pos (env : Env) (a : Asteroid) :
    (Asteroid.update env a).pos = wrapVec env (a.pos + a.vel.smul env.dt) := rfl

theorem asteroid_update_vel (env : Env) (a : Asteroid) :
    (Asteroid.update env a).vel = a.vel := rfl

theorem bullet_update_pos (env : Env) (b : Bullet) (h : 0 < b.lifetime - env.dt) :
    (Bullet.update env b).pos = wrapVec env (b.pos + b.vel.smul env.dt) := by
  unfold Bullet.update
  rw [if_neg (by linarith : ¬ b.lifetime - env.dt ≤ 0)]

theorem bullet_update_vel (env : Env) (b : Bullet) :
    (Bullet.update env b).vel = b.vel := by
  unfold Bullet.update
  dsimp only
  split <;> rfl

theorem player_update_pos (env : Env) (inp : Input) (p : Player) :
    (Player.update env inp p).1.pos
      = wrapVec env (p.pos + ((Player.update env inp p).1.vel).smul env.dt) := by
  unfold Player.update
  dsimp only
  split <;> rfl

/- ===================== claim theorems ===================== -/

/-- C2 counterexample: the wrap does not keep positions strictly below the
screen dimension.  The asteroid aNeg integrates to x = -5, which the wrap
maps to exactly env0.w = 1000, so the claimed strict bound x < width fails
on this concrete frame. -/
theorem C2_counterexample :
    (Asteroid.update env0 aNeg).pos.x = env0.w ∧
    ¬ (Asteroid.update env0 aNeg).pos.x < env0.w := by
  norm_num [Asteroid.update, wrapVec, wrap1, Vec2.smul, Vec2.add_def, env0, aNeg]

/-- C2 amended: for nonnegative screen dimensions, every post-update,
post-wrap position of every entity kind lies in the closed box
[0, width] times [0, height] (the upper edge is attainable, since a
coordinate that went negative is set to exactly the dimension); for a
bullet this concerns the frames in which it still integrates, that is,
its decremented lifetime is positive. -/
theorem C2_amended_wrap_invariant (env : Env) (hw : 0 ≤ env.w) (hh : 0 ≤ env.h) :
    (∀ a : Asteroid,
      0 ≤ (Asteroid.update env a).pos.x ∧ (Asteroid.update env a).pos.x ≤ env.w ∧
      0 ≤ (Asteroid.update env a).pos.y ∧ (Asteroid.update env a).pos.y ≤ env.h) ∧
    (∀ (inp : Input) (p : Player),
      0 ≤ (Player.update env inp p).1.pos.x ∧
      (Player.update env inp p).1.pos.x ≤ env.w ∧
      0 ≤ (Player.update env inp p).1.pos.y ∧
      (Player.update env inp p).1.pos.y ≤ env.h) ∧
    (∀ b : Bullet, 0 < b.lifetime - env.dt →
      0 ≤ (Bullet.update env b).pos.x ∧ (Bullet.update env b).pos.x ≤ env.w ∧
      0 ≤ (Bullet.update env b).pos.y ∧ (Bullet.update env b).pos.y ≤ env.h) := by
  refine ⟨?_, ?_, ?_⟩
  · intro a
    rw [asteroid_update_pos]
    exact ⟨(wrap1_bounds hw _).1, (wrap1_bounds hw _).2,
      (wrap1_bounds hh _).1, (wrap1_bounds hh _).2⟩
  · intro inp p
    rw [player_update_pos]
    exact ⟨(wrap1_bounds hw _).1, (wrap1_bounds hw _).2,
      (wrap1_bounds hh _).1, (wrap1_bounds hh _).2⟩
  · intro b hb
    rw [bullet_update_pos env b hb]
    exact ⟨(wrap1_bounds hw _).1, (wrap1_bounds hw _).2,
      (wrap1_bounds hh _).1, (wrap1_bounds hh _).2⟩

/-- C2 witness: the amended invariant instantiated on the concrete frame
environment env0 and the concrete entities aNeg, p0 and b500. -/
theorem C2_amended_witness :
    (0 ≤ (Asteroid.update env0 aNeg).pos.x ∧
     (Asteroid.update env0 aNeg).pos.x ≤ env0.w ∧
     0 ≤ (Asteroid.update env0 aNeg).pos.y ∧
     (Asteroid.update env0 aNeg).pos.y ≤ env0.h) ∧
    (0 ≤ (Bullet.update env0 b500).pos.x ∧
     (Bullet.update env0 b500).pos.x ≤ env0.w ∧
     0 ≤ (Bullet.update env0 b500).pos.y ∧
     (Bullet.update env0 b500).pos.y ≤ env0.h) := by
  have h := C2_amended_wrap_invariant env0 (by norm_num [env0]) (by norm_num [env0])
  exact ⟨h.1 aNeg, h.2.2 b500 (by norm_num [env0, b500])⟩

/-- C3: for each entity kind the per-frame kinematic step moves the
position by velocity times dt and wraps each axis with the one shared
wrap function (wrapVec, built from wrap1): a coordinate strictly below 0
becomes the screen dimension, a coordinate strictly above a nonnegative
screen dimension becomes 0, and an in-range coordinate is unchanged (no
clamping and no bouncing).  For the asteroid and the bullet the
integrating velocity is the stored velocity (unchanged by the update);
for the player it is the velocity that the update itself just produced,
as in the source.  The bullet integrates in the frames in which its
decremented lifetime is still positive. -/
theorem C3_kinematics :
    (∀ x w : ℚ, x < 0 → wrap1 x w = w) ∧
    (∀ x w : ℚ, 0 ≤ w → w < x → wrap1 x w = 0) ∧
    (∀ x w : ℚ, 0 ≤ x → x ≤ w → wrap1 x w = x) ∧
    (∀ (env : Env) (a : Asteroid),
      (Asteroid.update env a).pos = wrapVec env (a.pos + a.vel.smul env.dt) ∧
      (Asteroid.update env a).vel = a.vel) ∧
    (∀ (env : Env) (b : Bullet), 0 < b.lifetime - env.dt →
      (Bullet.update env b).pos = wrapVec env (b.pos + b.vel.smul env.dt) ∧
      (Bullet.update env b).vel = b.vel) ∧
    (∀ (env : Env) (inp : Input) (p : Player),
      (Player.update env inp p).1.pos
        = wrapVec env (p.pos + ((Player.update env inp p).1.vel).smul env.dt)) :=
  ⟨fun _ _ h => wrap1_neg h,
   fun _ _ hw h => wrap1_over hw h,
   fun _ _ h0 h1 => wrap1_id h0 h1,
   fun env a => ⟨asteroid_update_pos env a, asteroid_update_vel env a⟩,
   fun env b hb => ⟨bullet_update_pos env b hb, bullet_update_vel env b⟩,
   fun env inp p => player_update_pos env inp p⟩

/-- C3 witness: the wrap rule and the bullet kinematic equation evaluated
on concrete inputs. -/
theorem C3_witness :
    wrap1 (-5) 1000 = 1000 ∧ wrap1 1005 1000 = 0 ∧ wrap1 5 1000 = 5 ∧
    (Bullet.update env0 b500).pos = wrapVec env0 (b500.pos + b500.vel.smul env0.dt) := by
  obtain ⟨h1, h2, h3, _, h5, _⟩ := C3_kinematics
  exact ⟨h1 (-5) 1000 (by norm_num), h2 1005 1000 (by norm_num) (by norm_num),
    h3 5 1000 (by norm_num) (by norm_num),
    (h5 env0 b500 (by norm_num [env0, b500])).1⟩

/-- C4: the tier table maps Big to Medium, Medium to Small, Small to no
child; splitting a Small asteroid yields no children and leaves the rng
cursor alone; splitting any asteroid whose tier has a child yields exactly
the two asteroids built by the creation rule at the parent position, at
the fresh rng cursors k and k + 3; every child sits at the parent
position, is alive, and has the next-smaller tier; and the children do
not depend on the parent velocity at all. -/
theorem C4_split :
    (AsteroidSize.split .Big = some .Medium ∧
     AsteroidSize.split .Medium = some .Small ∧
     AsteroidSize.split .Small = none) ∧
    ∀ (a : Asteroid) (env : Env) (rng : ℕ → ℚ) (k : ℕ),
      (a.size = .Small → a.split env rng k = ([], k)) ∧
      (∀ cs, a.size.split = some cs →
        a.split env rng k
          = ([(Asteroid.new env rng a.pos cs k).1,
              (Asteroid.new env rng a.pos cs (k + 3)).1], k + 6)) ∧
      (∀ c ∈ (a.split env rng k).1,
        c.pos = a.pos ∧ c.alive = true ∧ a.size.split = some c.size) ∧
      (∀ v, Asteroid.split { a with vel := v } env rng k = a.split env rng k) := by
  refine ⟨⟨rfl, rfl, rfl⟩, ?_⟩
  intro a env rng k
  refine ⟨?_, ?_, ?_, ?_⟩
  · intro hs
    unfold Asteroid.split
    rw [hs]
    rfl
  · intro cs hcs
    unfold Asteroid.split
    rw [hcs]
    simp [Asteroid.new]
  · intro c hc
    revert hc
    unfold Asteroid.split
    cases hcs : a.size.split with
    | none => simp
    | some cs =>
      intro hc
      simp only [List.mem_cons, List.not_mem_nil, or_false] at hc
      rcases hc with h | h <;> subst h <;> exact ⟨rfl, rfl, rfl⟩
  · intro v
    unfold Asteroid.split
    rfl

/-- C4 witness: splitting the concrete Big asteroid big500 yields exactly
the two Medium asteroids created at its position from fresh draws. -/
theorem C4_witness :
    big500.split env0 rng0 0
      = ([(Asteroid.new env0 rng0 big500.pos .Medium 0).1,
          (Asteroid.new env0 rng0 big500.pos .Medium 3).1], 6) :=
  (C4_split.2 big500 env0 rng0 0).2.1 .Medium rfl

/-- C5: the tier scores are 20, 50 and 100; across any bullet-asteroid
pass the final score is the initial score plus exactly the sum, over the
asteroid slots that went from alive to dead in the pass, of the tier
score of that slot (each destruction adds exactly the destroyed tier
score); and on a concrete frame whose three bullets destroy one Big, one
Medium and one Small asteroid the score rises by exactly 20 + 50 + 100. -/
theorem C5_scores :
    (AsteroidSize.score .Big = 20 ∧ AsteroidSize.score .Medium = 50 ∧
     AsteroidSize.score .Small = 100) ∧
    (∀ (env : Env) (rng : ℕ → ℚ) (bs : List Bullet) (A : List Asteroid)
       (sc : ℕ) (stg : List Asteroid) (k : ℕ),
      (bulletPass env rng bs A sc stg k).score
        = sc + creditSum A (bulletPass env rng bs A sc stg k).asts) ∧
    (bulletPass env0 rng0 [bltAt 100 100, bltAt 400 400, bltAt 700 700]
        [astAt .Big 100 100, astAt .Medium 400 400, astAt .Small 700 700]
        0 [] 0).score
      = AsteroidSize.score .Big + AsteroidSize.score .Medium
          + AsteroidSize.score .Small := by
  refine ⟨⟨rfl, rfl, rfl⟩,
    fun env rng bs A sc stg k => (bulletPass_spec env rng bs A sc stg k).2, ?_⟩
  norm_num [bulletPass, hitScan, circleHit, Vec2.distSq, Asteroid.split,
    AsteroidSize.split, Asteroid.radius, AsteroidSize.radius, Bullet.radius,
    AsteroidSize.score, Asteroid.new, genR, bltAt, astAt, env0, rng0,
    AsteroidSize.speed]

/-- C1 counterexample: one live bullet (b500) simultaneously overlapping
two live Small asteroids destroys BOTH of them in the same pass and is
credited for both (score 200, twice the Small score), because the source
only re-tests b.alive at the top of the outer loop, not inside the inner
asteroid scan.  This falsifies the claim that exactly one asteroid is
destroyed and the other survives the frame. -/
theorem C1_counterexample :
    ((bulletPass env0 rng0 [b500] [small500, small510] 0 [] 0).asts.map
       Asteroid.alive = [false, false]) ∧
    (bulletPass env0 rng0 [b500] [small500, small510] 0 [] 0).score = 200 ∧
    ((bulletPass env0 rng0 [b500] [small500, small510] 0 [] 0).bullets.map
       Bullet.alive = [false]) := by
  norm_num [bulletPass, hitScan, circleHit, Vec2.distSq, Asteroid.split,
    AsteroidSize.split, Asteroid.radius, AsteroidSize.radius, Bullet.radius,
    AsteroidSize.score, b500, small500, small510]

/-- C1 amended: a bullet that is already dead when its turn in the outer
loop comes (from lifetime expiry or an earlier bullet iteration) is
skipped whole, but once a live bullet starts its inner scan its death mark
is not rechecked, so it may destroy every live asteroid it overlaps in
that scan.  The asteroid side of the claim does hold: across the whole
pass each asteroid slot is either returned unchanged or killed once while
alive (an asteroid already dead is skipped and never changed again), and
the score increases by exactly one tier score per slot that went from
alive to dead, so each asteroid is credited at most once. -/
theorem C1_amended_pass :
    (∀ (env : Env) (rng : ℕ → ℚ) (b : Bullet) (bs : List Bullet)
       (A : List Asteroid) (sc : ℕ) (stg : List Asteroid) (k : ℕ),
      b.alive = false →
      bulletPass env rng (b :: bs) A sc stg k
        = { bulletPass env rng bs A sc stg k with
            bullets := b :: (bulletPass env rng bs A sc stg k).bullets }) ∧
    (∀ (env : Env) (rng : ℕ → ℚ) (bs : List Bullet) (A : List Asteroid)
       (sc : ℕ) (stg : List Asteroid) (k : ℕ),
      List.Forall₂ StepA A (bulletPass env rng bs A sc stg k).asts ∧
      (bulletPass env rng bs A sc stg k).score
        = sc + creditSum A (bulletPass env rng bs A sc stg k).asts) := by
  constructor
  · intro env rng b bs A sc stg k hb
    rw [bulletPass, if_pos hb]
  · intro env rng bs A sc stg k
    exact bulletPass_spec env rng bs A sc stg k

/-- C1 witness: the dead-bullet skip applied to the concrete dead bullet
bDead over an empty asteroid list. -/
theorem C1_amended_witness :
    bulletPass env0 rng0 [bDead] [] 0 [] 0 = ⟨[bDead], [], 0, [], 0⟩ := by
  rw [C1_amended_pass.1 env0 rng0 bDead [] [] 0 [] 0 rfl]
  rfl

/-- C6: in a Playing frame in which the updated player is alive and
overlaps some live asteroid of the merged (pass output plus staged
children) collection, the frame ends immediately: the player is marked
dead, the state becomes GameOver, and the result carries the unpruned
bullet and asteroid collections and the pass score unchanged — no
cleanup, no further scoring, and in particular the state is not Victory. -/
theorem C6_player_death_short_circuit (env : Env) (rng : ℕ → ℚ)
    (H : SpawnOk env rng defaultPos) (inp : Input) (g : Game) (k : ℕ)
    (hst : g.state = .Playing)
    (halive : (Game.afterPass env rng inp g k).1.alive = true)
    (hhit : playerHit (Game.afterPass env rng inp g k).1
        ((Game.afterPass env rng inp g k).2.asts
          ++ (Game.afterPass env rng inp g k).2.staged) = true) :
    Game.update env rng H inp g k
      = (⟨{ (Game.afterPass env rng inp g k).1 with alive := false },
          (Game.afterPass env rng inp g k).2.bullets,
          (Game.afterPass env rng inp g k).2.asts
            ++ (Game.afterPass env rng inp g k).2.staged,
          .GameOver,
          (Game.afterPass env rng inp g k).2.score⟩,
         (Game.afterPass env rng inp g k).2.k) ∧
    (Game.update env rng H inp g k).1.state = .GameOver ∧
    (Game.update env rng H inp g k).1.state ≠ .Victory := by
  have hcond : ((Game.afterPass env rng inp g k).1.alive
      && playerHit (Game.afterPass env rng inp g k).1
        ((Game.afterPass env rng inp g k).2.asts
          ++ (Game.afterPass env rng inp g k).2.staged)) = true := by
    rw [halive, hhit]
    rfl
  have hout : Game.update env rng H inp g k
      = (⟨{ (Game.afterPass env rng inp g k).1 with alive := false },
          (Game.afterPass env rng inp g k).2.bullets,
          (Game.afterPass env rng inp g k).2.asts
            ++ (Game.afterPass env rng inp g k).2.staged,
          .GameOver,
          (Game.afterPass env rng inp g k).2.score⟩,
         (Game.afterPass env rng inp g k).2.k) := by
    rw [Game.update, if_neg (by simp [hst]), Game.updatePlaying]
    dsimp only
    rw [if_pos hcond]
  refine ⟨hout, ?_, ?_⟩
  · rw [hout]
  · rw [hout]
    simp

/-- C6 witness: in the concrete frame g6, whose live player stands on a
live Big asteroid, the update ends in GameOver. -/
theorem C6_witness :
    (Game.update env0 rng0 spawnOk0 inp0 g6 0).1.state = .GameOver :=
  (C6_player_death_short_circuit env0 rng0 spawnOk0 inp0 g6 0 rfl
    (by norm_num [Game.afterPass, Game.integrated, Game.spawnBullet,
      Player.update, Vec2.smul, Vec2.add_def, wrapVec, wrap1, genR,
      env0, inp0, g6, p0])
    (by norm_num [Game.afterPass, Game.integrated, Game.spawnBullet,
      Player.update, Bullet.update, Asteroid.update, bulletPass, hitScan,
      circleHit, playerHit, Vec2.distSq, Vec2.smul, Vec2.add_def, wrapVec,
      wrap1, genR, env0, rng0, inp0, g6, p0, big500, Player.radius,
      Asteroid.radius, AsteroidSize.radius])).2.1

/-- C7: outside Playing no simulation logic runs: without the restart
signal the update returns the state and rng cursor untouched; with the
restart signal the update is exactly the restart routine, which returns
to Playing with no bullets, score 0, the player record reset in place to
the default position with zero velocity and rotation and alive (its
cooldown field, untouched by the source, stays as it was, showing the
object is reused rather than recreated), and a fresh wave of
INITIAL_ASTEROIDS live Big asteroids, each strictly farther than
SAFE_RADIUS from the default player-position reference. -/
theorem C7_restart (env : Env) (rng : ℕ → ℚ)
    (H : SpawnOk env rng defaultPos) (inp : Input) (g : Game) (k : ℕ)
    (hst : g.state ≠ .Playing) :
    (inp.restart = false → Game.update env rng H inp g k = (g, k)) ∧
    (inp.restart = true →
      Game.update env rng H inp g k = Game.restart env rng H g k ∧
      (Game.restart env rng H g k).1.state = .Playing ∧
      (Game.restart env rng H g k).1.bullets = [] ∧
      (Game.restart env rng H g k).1.score = 0 ∧
      (Game.restart env rng H g k).1.player
        = { g.player with pos := defaultPos, vel := ⟨0, 0⟩, rotation := 0, alive := true } ∧
      (Game.restart env rng H g k).1.player.shoot_cooldown
        = g.player.shoot_cooldown ∧
      (Game.restart env rng H g k).1.asteroids.length = INITIAL_ASTEROIDS ∧
      ∀ a ∈ (Game.restart env rng H g k).1.asteroids,
        a.size = .Big ∧ a.alive = true ∧
        SAFE_RADIUS ^ 2 < Vec2.distSq a.pos defaultPos) := by
  constructor
  · intro hr
    rw [Game.update, if_pos hst, hr]
    rfl
  · intro hr
    refine ⟨by rw [Game.update, if_pos hst, hr]; rfl, rfl, rfl, rfl, rfl, rfl,
      spawnAsteroids_length env rng defaultPos H INITIAL_ASTEROIDS k, ?_⟩
    intro a ha
    obtain ⟨hs, hl, k0, j, hpos, hacc, -⟩ :=
      spawnAsteroids_mem env rng defaultPos H INITIAL_ASTEROIDS k a ha
    refine ⟨hs, hl, ?_⟩
    rw [hpos]
    exact hacc

/-- C7 witness: the restart transition applied to the concrete GameOver
game gOver with the restart signal pressed. -/
theorem C7_witness :
    Game.update env0 rng0 spawnOk0 inpR gOver 0
      = Game.restart env0 rng0 spawnOk0 gOver 0 ∧
    (Game.restart env0 rng0 spawnOk0 gOver 0).1.state = .Playing ∧
    (Game.restart env0 rng0 spawnOk0 gOver 0).1.score = 0 ∧
    (Game.restart env0 rng0 spawnOk0 gOver 0).1.asteroids.length
      = INITIAL_ASTEROIDS := by
  have h := (C7_restart env0 rng0 spawnOk0 inpR gOver 0 (by decide)).2 rfl
  exact ⟨h.1, h.2.1, h.2.2.2.1, h.2.2.2.2.2.2.1⟩

/-- C8: spawning n initial asteroids produces exactly n asteroids, every
one a live Big asteroid whose position lies within the screen bounds
(given draws in [0, 1) and positive dimensions) and strictly farther than
SAFE_RADIUS from the avoid point (stated in squared form, equivalent for
nonnegative distances), and every position is exactly the first sampled
candidate of its slot that passes the clearance test: it equals the trial
at some index j that is accepted while every earlier trial of that slot
is rejected. -/
theorem C8_spawn_placement (env : Env) (rng : ℕ → ℚ) (avoid : Vec2)
    (H : SpawnOk env rng avoid) (n k : ℕ)
    (Hr : ∀ m, 0 ≤ rng m ∧ rng m < 1) (Hw : 0 < env.w) (Hh : 0 < env.h) :
    (spawnAsteroids env rng avoid H n k).1.length = n ∧
    ∀ a ∈ (spawnAsteroids env rng avoid H n k).1,
      a.size = .Big ∧ a.alive = true ∧
      (0 ≤ a.pos.x ∧ a.pos.x < env.w ∧ 0 ≤ a.pos.y ∧ a.pos.y < env.h) ∧
      SAFE_RADIUS ^ 2 < Vec2.distSq a.pos avoid ∧
      ∃ k0 j, a.pos = sampleAt env rng k0 j ∧
        acceptSample env rng avoid k0 j ∧
        ∀ i, i < j → ¬ acceptSample env rng avoid k0 i := by
  refine ⟨spawnAsteroids_length env rng avoid H n k, ?_⟩
  intro a ha
  obtain ⟨hs, hl, k0, j, hpos, hacc, hmin⟩ :=
    spawnAsteroids_mem env rng avoid H n k a ha
  have hx := genR_zero_bounds (Hr (k0 + 2 * j)).1 (Hr (k0 + 2 * j)).2 Hw
  have hy := genR_zero_bounds (Hr (k0 + 2 * j + 1)).1 (Hr (k0 + 2 * j + 1)).2 Hh
  have hpx : a.pos.x = genR 0 env.w (rng (k0 + 2 * j)) := by rw [hpos]; rfl
  have hpy : a.pos.y = genR 0 env.h (rng (k0 + 2 * j + 1)) := by rw [hpos]; rfl
  refine ⟨hs, hl, ⟨?_, ?_, ?_, ?_⟩, ?_, k0, j, hpos, hacc, hmin⟩
  · rw [hpx]; exact hx.1
  · rw [hpx]; exact hx.2
  · rw [hpy]; exact hy.1
  · rw [hpy]; exact hy.2
  · rw [hpos]; exact hacc

/-- C8 witness: the placement contract instantiated with the concrete
environment env0, stream rng0 and the default avoid point, for five
asteroids from cursor 0. -/
theorem C8_witness :
    (spawnAsteroids env0 rng0 defaultPos spawnOk0 5 0).1.length = 5 ∧
    ∀ a ∈ (spawnAsteroids env0 rng0 defaultPos spawnOk0 5 0).1,
      a.size = .Big ∧ a.alive = true ∧
      SAFE_RADIUS ^ 2 < Vec2.distSq a.pos defaultPos := by
  have h := C8_spawn_placement env0 rng0 defaultPos spawnOk0 5 0
    (fun m => by norm_num [rng0]) (by norm_num [env0]) (by norm_num [env0])
  refine ⟨h.1, ?_⟩
  intro a ha
  obtain ⟨hs, hl, -, hclear, -⟩ := h.2 a ha
  exact ⟨hs, hl, hclear⟩

/-- C9 counterexample: there are no two distinct keys that both trigger
the restart transition from the concrete GameOver game gOver; the source
polls is_key_pressed for the single key R (game.rs 95), unlike the four
movement and fire signals, so the claimed two-alias rule fails for the
restart signal. -/
theorem C9_counterexample :
    ¬ ∃ k1 k2 : KeyCode, k1 ≠ k2 ∧
      (Game.update env0 rng0 spawnOk0 (readInput ⟨[], [k1]⟩) gOver 0).1.state
        = .Playing ∧
      (Game.update env0 rng0 spawnOk0 (readInput ⟨[], [k2]⟩) gOver 0).1.state
        = .Playing := by
  rintro ⟨k1, k2, hne, h1, h2⟩
  have key : ∀ kk : KeyCode,
      (Game.update env0 rng0 spawnOk0 (readInput ⟨[], [kk]⟩) gOver 0).1.state
        = .Playing → kk = .R := by
    intro kk h
    cases kk <;>
      first
        | rfl
        | (rw [Game.update, if_pos (by decide : gOver.state ≠ .Playing)] at h
           simp [readInput, gOver] at h)
  exact hne ((key k1 h1).trans (key k2 h2).symm)

/-- C9 amended: the four held or fired signals each accept two key
bindings as logical aliases (Left or A, Right or D, Up or W, Space or Z),
but the restart signal is bound to the single key R: from any non-Playing
state, pressing exactly one key restarts precisely when that key is R. -/
theorem C9_amended_bindings :
    ((readInput ⟨[.Left], []⟩).left = true ∧ (readInput ⟨[.A], []⟩).left = true) ∧
    ((readInput ⟨[.Right], []⟩).right = true ∧ (readInput ⟨[.D], []⟩).right = true) ∧
    ((readInput ⟨[.Up], []⟩).up = true ∧ (readInput ⟨[.W], []⟩).up = true) ∧
    ((readInput ⟨[], [.Space]⟩).fire = true ∧ (readInput ⟨[], [.Z]⟩).fire = true) ∧
    (∀ s : InputState, (readInput s).restart = s.pressed.contains .R) ∧
    (∀ (env : Env) (rng : ℕ → ℚ) (H : SpawnOk env rng defaultPos) (g : Game)
       (k : ℕ) (kk : KeyCode), g.state ≠ .Playing →
      ((Game.update env rng H (readInput ⟨[], [kk]⟩) g k).1.state = .Playing
        ↔ kk = .R)) := by
  refine ⟨⟨rfl, rfl⟩, ⟨rfl, rfl⟩, ⟨rfl, rfl⟩, ⟨rfl, rfl⟩, fun s => rfl, ?_⟩
  intro env rng H g k kk hst
  constructor
  · intro h
    by_contra hk
    rw [Game.update, if_pos hst] at h
    have hr : (readInput ⟨[], [kk]⟩).restart = false := by
      simp [readInput]
      exact fun hkr => hk hkr.symm
    rw [if_neg (by simp [hr])] at h
    exact hst h
  · intro hk
    subst hk
    rw [Game.update, if_pos hst, if_pos (by simp [readInput])]
    rfl

/-- C9 amended witness: pressing R alone on the concrete GameOver game
gOver does trigger the restart transition back to Playing. -/
theorem C9_amended_witness :
    (Game.update env0 rng0 spawnOk0 (readInput ⟨[], [KeyCode.R]⟩) gOver 0).1.state
      = .Playing :=
  (C9_amended_bindings.2.2.2.2.2 env0 rng0 spawnOk0 gOver 0 .R
    (by decide)).mpr rfl

/-- C10: children staged by splits during the bullet-asteroid pass are
not visible to that same pass — every staged child is still alive when
the pass ends, so no child was destroyed or credited in the frame that
created it — yet they are merged before the player-asteroid pass: in the
concrete frame g10 the first bullet kills the Big asteroid (score 20
only: the staged Medium children are not scored and the second
overlapping bullet survives without hitting them), while a freshly staged
child overlapping the player ends that very frame in GameOver. -/
theorem C10_staged_children :
    (∀ (env : Env) (rng : ℕ → ℚ) (bs : List Bullet) (A : List Asteroid)
       (sc k : ℕ),
      ∀ c ∈ (bulletPass env rng bs A sc [] k).staged, c.alive = true) ∧
    ((Game.update env0 rng0 spawnOk0 inp0 g10 0).1.score = 20 ∧
     (Game.update env0 rng0 spawnOk0 inp0 g10 0).1.state = .GameOver ∧
     (Game.update env0 rng0 spawnOk0 inp0 g10 0).1.bullets.map Bullet.alive
       = [false, true] ∧
     (Game.update env0 rng0 spawnOk0 inp0 g10 0).1.asteroids.map Asteroid.alive
       = [false, true, true]) := by
  constructor
  · intro env rng bs A sc k c hc
    rcases bulletPass_staged env rng bs A sc [] k c hc with hmem | halive
    · exact absurd hmem (List.not_mem_nil c)
    · exact halive
  · norm_num [Game.update, Game.updatePlaying, Game.afterPass, Game.integrated,
      Game.spawnBullet, Player.update, Bullet.update, Asteroid.update,
      bulletPass, hitScan, circleHit, playerHit, Vec2.distSq, Vec2.smul,
      Vec2.add_def, Asteroid.split, AsteroidSize.split, Asteroid.radius,
      AsteroidSize.radius, Bullet.radius, Player.radius, AsteroidSize.score,
      Asteroid.new, genR, wrapVec, wrap1, env0, rng0, inp0, g10, p0, b500,
      big500, AsteroidSize.speed]

/-- C10 witness: the staged-children-stay-alive rule applied to the
concrete pass in which b500 splits big500, at the concrete child child0. -/
theorem C10_witness : child0.alive = true :=
  C10_staged_children.1 env0 rng0 [b500] [big500] 0 0 child0
    (by norm_num [bulletPass, hitScan, circleHit, Vec2.distSq, Asteroid.split,
      AsteroidSize.split, Asteroid.radius, AsteroidSize.radius, Bullet.radius,
      AsteroidSize.score, Asteroid.new, genR, b500, big500, child0, env0, rng0,
      AsteroidSize.speed])

end Cacaroids
